import Mathlib

/-!
Shallow embedding of `paasta_tools/check_marathon_services_replication.py`.

The script evaluates replication adequacy per service instance.  External
collaborators (marathon_tools, monitoring_tools, mesos/task queries, the
context provider) are modelled as an environment record holding the values
those calls would return for the instance under scrutiny.  Sending an event
to Sensu is modelled as returning `some event`; a suppressed event is `none`.
A Python runtime error (ZeroDivisionError) is modelled by an outer `Option`
layer: `none` means the call would raise.
-/

/-- Sensu statuses used by the script (`pysensu_yelp.Status.OK` / `CRITICAL`). -/
inductive SensuStatus where
  | OK : SensuStatus
  | CRITICAL : SensuStatus
deriving DecidableEq, Repr

/-- Event dispatched to Sensu by `send_event` (routing-metadata details other
than the team are external data and omitted; the fields kept are the ones the
script itself computes or guards on). -/
structure Event where
  check_name : String
  runbook : String
  status : SensuStatus
  output : String
  team : String
deriving DecidableEq, Repr

/-- Results of the external collaborator calls for one service instance
(marathon_tools, monitoring_tools, paasta_serviceinit, monitoring context).
`get_team = none` models `get_team` returning a falsy value;
`get_expected_instance_count_for_namespace = Except.error ()` models the
`NoDeploymentsAvailable` exception. -/
structure ExternalEnv where
  read_namespace_for_service_instance : String
  get_context : String
  get_team : Option String
  get_runbook : String
  get_running_tasks_from_active_frameworks : List String
  get_expected_instance_count_for_namespace : Except Unit (Option ℕ)
  get_proxy_port_for_instance : Option ℕ
deriving Repr

/-- Separator `marathon_tools.ID_SPACER`; the script's own docstrings show the
full id format as "mumble.main", so the spacer is a dot. -/
def ID_SPACER : String := "."

/-- Replication info slice for one location type, as passed to
`check_smartstack_replication_for_instance`: a mapping
location name -> (full instance name -> available backend count), modelled as
an association list with the dict's distinct keys. -/
abbrev ReplicationInfo := List (String × List (String × ℕ))

/-- Embedding of `send_event` (lines 40-76): resolve the team; when it is
falsy, return before contacting Sensu (`none`); otherwise dispatch the event. -/
def send_event (env : ExternalEnv) (service_name ns : String)
    (status : SensuStatus) (output : String) : Option Event :=
  let check_name := "check_marathon_services_replication." ++ service_name ++ ID_SPACER ++ ns
  match env.get_team with
  | none => none
  | some team =>
      some { check_name := check_name, runbook := env.get_runbook,
             status := status, output := output, team := team }

/-- Embedding of `add_context_to_event` (lines 170-173): `'%s\n%s' % (output, context)`. -/
def add_context_to_event (context output : String) : String :=
  output ++ "\n" ++ context

/-- Embedding of `is_under_replicated` (lines 176-185).  The Python ratio is
`num_available / float(expected_count) * 100`, an exact real-valued fraction
for these operand sizes, modelled in `ℚ`; `expected_count == 0` short-circuits
to 100.  Returns `(under_replicated, ratio)`. -/
def is_under_replicated (num_available expected_count : ℕ) (crit_threshold : ℤ) : Bool × ℚ :=
  let pct : ℚ := if expected_count = 0 then 100 else ((num_available : ℚ) / (expected_count : ℚ)) * 100
  if pct < (crit_threshold : ℚ) then (true, pct) else (false, pct)

/-- Python `%d` formatting of a (non-negative here) number: truncation of the
rational toward zero, then decimal rendering. -/
def py_trunc (q : ℚ) : ℤ :=
  q.num.tdiv (q.den : ℤ)

/-- Byte/codepoint lexicographic order on character lists, as Python compares
strings. -/
def charListLt : List Char → List Char → Bool
  | _, [] => false
  | [], _ :: _ => true
  | a :: as, b :: bs =>
      if a.val < b.val then true
      else if b.val < a.val then false
      else charListLt as bs

/-- String order used by Python `sorted` on the location names. -/
def strLe (a b : String) : Bool :=
  ! charListLt b.data a.data

/-- Embedding of `sorted(smartstack_replication_info.iteritems())` (line 148):
the dict items sorted by location name (keys are distinct, so the tuple order
is decided by the first component). -/
def sorted_iteritems (info : ReplicationInfo) : ReplicationInfo :=
  info.insertionSort (fun a b => strLe a.1 b.1)

/-- Python integer division `expected_count / len(...)` (line 144), fallible:
`none` models the ZeroDivisionError raised when the divisor is zero. -/
def safe_int_div (a b : ℕ) : Option ℕ :=
  if b = 0 then none else some (a / b)

/-- One loop iteration's under-replication flag (lines 149-151):
`available_backends.get(full_name, 0)` fed to `is_under_replicated`. -/
def location_under_replicated (full_name : String) (expected_count_per_location : ℕ)
    (crit_threshold : ℤ) (p : String × List (String × ℕ)) : Bool :=
  (is_under_replicated ((List.lookup full_name p.2).getD 0) expected_count_per_location crit_threshold).1

/-- One loop iteration's output line (lines 152-157). -/
def location_line (full_name : String) (expected_count_per_location : ℕ)
    (crit_threshold : ℤ) (p : String × List (String × ℕ)) : String :=
  let num_available_in_location := (List.lookup full_name p.2).getD 0
  let r := is_under_replicated num_available_in_location expected_count_per_location crit_threshold
  if r.1 then
    "- Service " ++ full_name ++ " has " ++ toString num_available_in_location ++ " out of " ++
      toString expected_count_per_location ++ " expected instances in " ++ p.1 ++
      " (CRITICAL: " ++ toString (py_trunc r.2) ++ "%)\n"
  else
    "- Service " ++ full_name ++ " has " ++ toString num_available_in_location ++ " out of " ++
      toString expected_count_per_location ++ " expected instances in " ++ p.1 ++
      " (OK: " ++ toString (py_trunc r.2) ++ "%)\n"

/-- The no-replication-info message of lines 139-140. -/
def no_replication_info_output (full_name : String) : String :=
  "Service " ++ full_name ++ " has no Smartstack replication info. " ++
    "Make sure the discover key in your smartstack.yaml is valid!\n"

/-- Embedding of `check_smartstack_replication_for_instance` (lines 106-167).
The outer `Option` is `none` exactly when the Python code would raise; the
inner `Option Event` is the event handed to Sensu (or `none` when skipped or
suppressed). -/
def check_smartstack_replication_for_instance (env : ExternalEnv)
    (service instance_name : String) (smartstack_replication_info : ReplicationInfo)
    (crit_threshold : ℤ) (expected_count : ℕ) : Option (Option Event) :=
  let ns := env.read_namespace_for_service_instance
  if ns ≠ instance_name then
    some none
  else
    let full_name := service ++ ID_SPACER ++ instance_name
    if smartstack_replication_info.length = 0 then
      let output := no_replication_info_output full_name
      let output2 := add_context_to_event env.get_context output
      some (send_event env service instance_name SensuStatus.CRITICAL output2)
    else
      match safe_int_div expected_count smartstack_replication_info.length with
      | none => none
      | some expected_count_per_location =>
          let items := sorted_iteritems smartstack_replication_info
          let output := String.join (items.map (location_line full_name expected_count_per_location crit_threshold))
          let under_replication_per_location := items.map (location_under_replicated full_name expected_count_per_location crit_threshold)
          if under_replication_per_location.any (fun b => b) then
            some (send_event env service instance_name SensuStatus.CRITICAL
              (add_context_to_event env.get_context output))
          else
            some (send_event env service instance_name SensuStatus.OK output)

/-- Embedding of `send_event_if_under_replication` (lines 202-220). -/
def send_event_if_under_replication (env : ExternalEnv) (service instance_name : String)
    (crit_threshold : ℤ) (expected_count num_available : ℕ) : Option Event :=
  let full_name := service ++ ID_SPACER ++ instance_name
  let output := "Service " ++ full_name ++ " has " ++ toString num_available ++ " out of " ++
    toString expected_count ++ " expected instances available!\n(threshold: " ++
    toString crit_threshold ++ "%)"
  if (is_under_replicated num_available expected_count crit_threshold).1 then
    send_event env service instance_name SensuStatus.CRITICAL output
  else
    send_event env service instance_name SensuStatus.OK output

/-- Embedding of `check_mesos_replication_for_service` (lines 188-199):
`num_available` is the length of the running-task list from the schedulers. -/
def check_mesos_replication_for_service (env : ExternalEnv) (service instance_name : String)
    (crit_threshold : ℤ) (expected_count : ℕ) : Option Event :=
  let num_available := env.get_running_tasks_from_active_frameworks.length
  send_event_if_under_replication env service instance_name crit_threshold expected_count num_available

/-- Embedding of `check_service_replication` (lines 223-251). -/
def check_service_replication (env : ExternalEnv) (service instance_name : String)
    (crit_threshold : ℤ) (smartstack_replication_info : ReplicationInfo) : Option (Option Event) :=
  match env.get_expected_instance_count_for_namespace with
  | Except.error _ => some none
  | Except.ok none => some none
  | Except.ok (some expected_count) =>
      match env.get_proxy_port_for_instance with
      | some _ =>
          check_smartstack_replication_for_instance env service instance_name
            smartstack_replication_info crit_threshold expected_count
      | none =>
          some (check_mesos_replication_for_service env service instance_name crit_threshold expected_count)

def c7_env : ExternalEnv :=
  { read_namespace_for_service_instance := "main", get_context := "ctx",
    get_team := some "ops", get_runbook := "rb",
    get_running_tasks_from_active_frameworks := [],
    get_expected_instance_count_for_namespace := Except.error (),
    get_proxy_port_for_instance := none }

def c8_env : ExternalEnv :=
  { read_namespace_for_service_instance := "main", get_context := "ctx",
    get_team := none, get_runbook := "rb",
    get_running_tasks_from_active_frameworks := [],
    get_expected_instance_count_for_namespace := Except.ok (some 1),
    get_proxy_port_for_instance := none }

def c2_env : ExternalEnv :=
  { read_namespace_for_service_instance := "other", get_context := "ctx",
    get_team := some "ops", get_runbook := "rb",
    get_running_tasks_from_active_frameworks := ["task1"],
    get_expected_instance_count_for_namespace := Except.ok (some 4),
    get_proxy_port_for_instance := none }

def c2a_env : ExternalEnv :=
  { read_namespace_for_service_instance := "other", get_context := "ctx",
    get_team := some "ops", get_runbook := "rb",
    get_running_tasks_from_active_frameworks := ["task1"],
    get_expected_instance_count_for_namespace := Except.ok (some 4),
    get_proxy_port_for_instance := some 3000 }

def c3_env : ExternalEnv :=
  { read_namespace_for_service_instance := "main", get_context := "ctx",
    get_team := some "ops", get_runbook := "rb",
    get_running_tasks_from_active_frameworks := [],
    get_expected_instance_count_for_namespace := Except.ok (some 10),
    get_proxy_port_for_instance := some 3000 }

def c5_env : ExternalEnv :=
  { read_namespace_for_service_instance := "main", get_context := "ctx",
    get_team := some "ops", get_runbook := "rb",
    get_running_tasks_from_active_frameworks := [],
    get_expected_instance_count_for_namespace := Except.ok (some 10),
    get_proxy_port_for_instance := some 3000 }

def c5_info : ReplicationInfo :=
  [("dc-a", [("svc.main", 3)]), ("dc-b", [("svc.main", 1)]), ("dc-c", [("svc.main", 3)])]

def c6_env : ExternalEnv :=
  { read_namespace_for_service_instance := "main", get_context := "ctx",
    get_team := some "ops", get_runbook := "rb",
    get_running_tasks_from_active_frameworks := ["t1"],
    get_expected_instance_count_for_namespace := Except.ok (some 4),
    get_proxy_port_for_instance := none }

/-- Per-domain report line in the exact format the specification quotes:
"<full identifier> has <observed> out of <perDomainExpected> expected instances
in <domain> (<OK|CRITICAL>: <ratio>%)" with the ratio as an integer
percentage.  Written from the spec's words, for comparison with the source's
`location_line`. -/
def spec_location_line (full_name : String) (expected_count_per_location : ℕ)
    (crit_threshold : ℤ) (p : String × List (String × ℕ)) : String :=
  let observed := (List.lookup full_name p.2).getD 0
  let r := is_under_replicated observed expected_count_per_location crit_threshold
  full_name ++ " has " ++ toString observed ++ " out of " ++
    toString expected_count_per_location ++ " expected instances in " ++ p.1 ++
    (if r.1 then " (CRITICAL: " else " (OK: ") ++ toString (py_trunc r.2) ++ "%)"

def c9_env : ExternalEnv :=
  { read_namespace_for_service_instance := "main", get_context := "ctx",
    get_team := some "ops", get_runbook := "rb",
    get_running_tasks_from_active_frameworks := [],
    get_expected_instance_count_for_namespace := Except.ok (some 3),
    get_proxy_port_for_instance := some 3000 }

def c9w_info : ReplicationInfo :=
  [("dc-b", [("svc.main", 1)]), ("dc-a", [("svc.main", 3)])]

/-! Helper lemmas shared by the claim theorems. -/

lemma is_under_replicated_snd (num_available expected_count : ℕ) (crit_threshold : ℤ) :
    (is_under_replicated num_available expected_count crit_threshold).2 =
      (if expected_count = 0 then (100 : ℚ) else ((num_available : ℚ) / (expected_count : ℚ)) * 100) := by
  unfold is_under_replicated
  dsimp only
  split <;> split <;> rfl

lemma is_under_replicated_fst_iff (num_available expected_count : ℕ) (crit_threshold : ℤ) :
    (is_under_replicated num_available expected_count crit_threshold).1 = true ↔
      (is_under_replicated num_available expected_count crit_threshold).2 < (crit_threshold : ℚ) := by
  unfold is_under_replicated
  dsimp only
  split <;> split <;> simp_all

/-- C1: for every `num_available`, `expected_count` and `crit_threshold`, the
ratio returned by `is_under_replicated` is 100 when the expected count is 0 and
otherwise the exact (non-floored) value `num_available / expected_count * 100`,
and the pair's flag is true exactly when that ratio is below the threshold. -/
theorem c1_is_under_replicated_spec (num_available expected_count : ℕ) (crit_threshold : ℤ) :
    (is_under_replicated num_available expected_count crit_threshold).2 =
      (if expected_count = 0 then (100 : ℚ) else ((num_available : ℚ) / (expected_count : ℚ)) * 100) ∧
    ((is_under_replicated num_available expected_count crit_threshold).1 = true ↔
      (is_under_replicated num_available expected_count crit_threshold).2 < (crit_threshold : ℚ)) :=
  ⟨is_under_replicated_snd num_available expected_count crit_threshold,
   is_under_replicated_fst_iff num_available expected_count crit_threshold⟩

/-- C7: when the expected instance count cannot be determined (the deployments
lookup raises, or yields `None`), `check_service_replication` returns without
error and without emitting any event. -/
theorem c7_missing_expected_count_skips (env : ExternalEnv) (service instance_name : String)
    (crit_threshold : ℤ) (info : ReplicationInfo)
    (h : env.get_expected_instance_count_for_namespace = Except.error () ∨
         env.get_expected_instance_count_for_namespace = Except.ok none) :
    check_service_replication env service instance_name crit_threshold info = some none := by
  unfold check_service_replication
  rcases h with h | h <;> rw [h]

/-- Witness for C7 at a concrete environment whose deployments lookup raises. -/
theorem c7_witness :
    (c7_env.get_expected_instance_count_for_namespace = Except.error () ∨
      c7_env.get_expected_instance_count_for_namespace = Except.ok none) ∧
    check_service_replication c7_env "svc" "main" 50 [] = some none :=
  ⟨Or.inl rfl, c7_missing_expected_count_skips c7_env "svc" "main" 50 [] (Or.inl rfl)⟩

/-- C8: when the team routing metadata resolves to nothing, `send_event`
returns before contacting the alert transport, whatever the status. -/
theorem c8_no_team_suppresses_event (env : ExternalEnv) (service_name ns : String)
    (status : SensuStatus) (output : String) (h : env.get_team = none) :
    send_event env service_name ns status output = none := by
  unfold send_event
  rw [h]

/-- Witness for C8: a CRITICAL report with no resolvable team is suppressed. -/
theorem c8_witness :
    c8_env.get_team = none ∧
    send_event c8_env "svc" "main" SensuStatus.CRITICAL "out" = none :=
  ⟨rfl, c8_no_team_suppresses_event c8_env "svc" "main" SensuStatus.CRITICAL "out" rfl⟩

/-- C10: the per-location division inside
`check_smartstack_replication_for_instance` is guarded by the emptiness branch,
so the function never raises a division-by-zero error (`none`) on any input. -/
theorem c10_no_division_by_zero (env : ExternalEnv) (service instance_name : String)
    (info : ReplicationInfo) (crit_threshold : ℤ) (expected_count : ℕ) :
    (check_smartstack_replication_for_instance env service instance_name info
      crit_threshold expected_count).isSome := by
  unfold check_smartstack_replication_for_instance
  dsimp only
  split
  · rfl
  · split
    · rfl
    · next hlen =>
        unfold safe_int_div
        rw [if_neg hlen]
        dsimp only
        split <;> rfl

/-- C2 counterexample: an instance whose resolved namespace ("other") differs
from its own name ("main") but has no proxy port goes down the direct-count
path, which never consults the namespace, and a CRITICAL event is emitted. -/
theorem c2_counterexample :
    c2_env.read_namespace_for_service_instance ≠ "main" ∧
    check_service_replication c2_env "svc" "main" 50 [] =
      some (some { check_name := "check_marathon_services_replication.svc.main",
                   runbook := "rb", status := SensuStatus.CRITICAL,
                   output := "Service svc.main has 1 out of 4 expected instances available!\n(threshold: 50%)",
                   team := "ops" }) := by
  constructor
  · decide
  · with_unfolding_all decide

/-- C2 (amended): an aliased instance is skipped without an alert on the
discovery (smartstack) path, and hence by the dispatcher whenever a proxy port
is configured; the direct-count path does not consult the namespace. -/
theorem c2_aliased_instance_skipped (env : ExternalEnv) (service instance_name : String)
    (crit_threshold : ℤ) (expected_count : ℕ) (info : ReplicationInfo)
    (h : env.read_namespace_for_service_instance ≠ instance_name)
    (hp : env.get_proxy_port_for_instance.isSome) :
    check_smartstack_replication_for_instance env service instance_name info
      crit_threshold expected_count = some none ∧
    check_service_replication env service instance_name crit_threshold info = some none := by
  have hs : ∀ ec : ℕ, check_smartstack_replication_for_instance env service instance_name info
      crit_threshold ec = some none := by
    intro ec
    unfold check_smartstack_replication_for_instance
    rw [if_pos h]
  refine ⟨hs expected_count, ?_⟩
  unfold check_service_replication
  rcases hexp : env.get_expected_instance_count_for_namespace with e | oc
  · rfl
  · rcases oc with _ | n
    · rfl
    · rcases hpp : env.get_proxy_port_for_instance with _ | p
      · rw [hpp] at hp; simp at hp
      · exact hs n

/-- Witness for the amended C2 at a concrete aliased instance with a proxy port. -/
theorem c2_aliased_instance_skipped_witness :
    c2a_env.read_namespace_for_service_instance ≠ "main" ∧
    (check_smartstack_replication_for_instance c2a_env "svc" "main" [("loc", [])] 50 4 = some none ∧
     check_service_replication c2a_env "svc" "main" 50 [("loc", [])] = some none) :=
  ⟨by decide,
   c2_aliased_instance_skipped c2a_env "svc" "main" 50 4 [("loc", [])] (by decide) rfl⟩

/-- C3: on the discovery path with an empty snapshot slice, the call sends a
CRITICAL event carrying the distinct no-replication-info message (plus
diagnostic context), and the result is the same for every expected count and
threshold: neither a per-domain expected count nor any ratio enters into it. -/
theorem c3_empty_slice_critical (env : ExternalEnv) (service instance_name : String)
    (crit_threshold crit_threshold2 : ℤ) (expected_count expected_count2 : ℕ)
    (hns : env.read_namespace_for_service_instance = instance_name) :
    check_smartstack_replication_for_instance env service instance_name [] crit_threshold expected_count =
      some (send_event env service instance_name SensuStatus.CRITICAL
        (add_context_to_event env.get_context
          (no_replication_info_output (service ++ ID_SPACER ++ instance_name)))) ∧
    check_smartstack_replication_for_instance env service instance_name [] crit_threshold expected_count =
      check_smartstack_replication_for_instance env service instance_name [] crit_threshold2 expected_count2 := by
  have h : ∀ (ct : ℤ) (ec : ℕ),
      check_smartstack_replication_for_instance env service instance_name [] ct ec =
        some (send_event env service instance_name SensuStatus.CRITICAL
          (add_context_to_event env.get_context
            (no_replication_info_output (service ++ ID_SPACER ++ instance_name)))) := by
    intro ct ec
    unfold check_smartstack_replication_for_instance
    rw [hns]
    simp
  exact ⟨h crit_threshold expected_count,
    (h crit_threshold expected_count).trans (h crit_threshold2 expected_count2).symm⟩

/-- Witness for C3 at a concrete environment with an empty snapshot slice. -/
theorem c3_empty_slice_critical_witness :
    c3_env.read_namespace_for_service_instance = "main" ∧
    (check_smartstack_replication_for_instance c3_env "svc" "main" [] 50 10 =
      some (send_event c3_env "svc" "main" SensuStatus.CRITICAL
        (add_context_to_event c3_env.get_context
          (no_replication_info_output ("svc" ++ ID_SPACER ++ "main")))) ∧
     check_smartstack_replication_for_instance c3_env "svc" "main" [] 50 10 =
       check_smartstack_replication_for_instance c3_env "svc" "main" [] 75 3) :=
  ⟨rfl, c3_empty_slice_critical c3_env "svc" "main" 50 75 10 3 rfl⟩

lemma sum_map_const_nat {α : Type} (l : List α) (c : ℕ) :
    (l.map (fun _ => c)).sum = l.length * c := by
  induction l with
  | nil => simp
  | cons a t ih => simp [ih, Nat.succ_mul, Nat.add_comm]

/-- C4: on the non-empty discovery path the per-domain expected count is the
floor `expected_count / number_of_locations`, identical for every location; the
sum of the per-domain counts over all (sorted) locations never exceeds the
total, and for 10 expected over 3 locations it is strictly less (9 < 10). -/
theorem c4_remainder_discarded (expected_count : ℕ) (info : ReplicationInfo) (h : info ≠ []) :
    safe_int_div expected_count info.length = some (expected_count / info.length) ∧
    ((sorted_iteritems info).map (fun _ => expected_count / info.length)).sum ≤ expected_count ∧
    (safe_int_div 10 3 = some 3 ∧ 3 * 3 < 10) := by
  have hlen : info.length ≠ 0 := fun hl => h (List.length_eq_zero.mp hl)
  refine ⟨?_, ?_, by decide⟩
  · unfold safe_int_div
    rw [if_neg hlen]
  · rw [sum_map_const_nat]
    have hsl : (sorted_iteritems info).length = info.length := by
      unfold sorted_iteritems
      exact List.length_insertionSort _ _
    rw [hsl, Nat.mul_comm]
    exact Nat.div_mul_le_self expected_count info.length

/-- Witness for C4 on a concrete one-location slice. -/
theorem c4_remainder_discarded_witness :
    ([("loc", [])] : ReplicationInfo) ≠ [] ∧
    (safe_int_div 5 ([("loc", [])] : ReplicationInfo).length =
        some (5 / ([("loc", [])] : ReplicationInfo).length) ∧
     ((sorted_iteritems [("loc", [])]).map
        (fun _ => 5 / ([("loc", [])] : ReplicationInfo).length)).sum ≤ 5 ∧
     (safe_int_div 10 3 = some 3 ∧ 3 * 3 < 10)) :=
  ⟨by decide, c4_remainder_discarded 5 [("loc", [])] (by decide)⟩

lemma check_smartstack_nonempty_eq (env : ExternalEnv) (service instance_name : String)
    (info : ReplicationInfo) (crit_threshold : ℤ) (expected_count : ℕ)
    (hns : env.read_namespace_for_service_instance = instance_name) (hne : info ≠ []) :
    check_smartstack_replication_for_instance env service instance_name info crit_threshold expected_count =
      some (send_event env service instance_name
        (if ((sorted_iteritems info).map (location_under_replicated (service ++ ID_SPACER ++ instance_name)
              (expected_count / info.length) crit_threshold)).any (fun b => b)
          then SensuStatus.CRITICAL else SensuStatus.OK)
        (if ((sorted_iteritems info).map (location_under_replicated (service ++ ID_SPACER ++ instance_name)
              (expected_count / info.length) crit_threshold)).any (fun b => b)
          then add_context_to_event env.get_context (String.join ((sorted_iteritems info).map
                 (location_line (service ++ ID_SPACER ++ instance_name) (expected_count / info.length) crit_threshold)))
          else String.join ((sorted_iteritems info).map
                 (location_line (service ++ ID_SPACER ++ instance_name) (expected_count / info.length) crit_threshold)))) := by
  have hlen : info.length ≠ 0 := fun hl => hne (List.length_eq_zero.mp hl)
  unfold check_smartstack_replication_for_instance
  rw [hns]
  rw [if_neg (fun hc : instance_name ≠ instance_name => hc rfl)]
  rw [if_neg hlen]
  unfold safe_int_div
  rw [if_neg hlen]
  dsimp only
  cases hany : ((sorted_iteritems info).map (location_under_replicated (service ++ ID_SPACER ++ instance_name)
      (expected_count / info.length) crit_threshold)).any (fun b => b) <;> simp [hany]

lemma any_map_self {α : Type} (l : List α) (f : α → Bool) :
    (l.map f).any (fun b => b) = l.any f := by
  induction l with
  | nil => rfl
  | cons a t ih => simp [ih]

lemma any_flags_iff (info : ReplicationInfo) (full_name : String)
    (expected_count_per_location : ℕ) (crit_threshold : ℤ) :
    (((sorted_iteritems info).map (location_under_replicated full_name
        expected_count_per_location crit_threshold)).any (fun b => b) = true) ↔
      ∃ p ∈ info, location_under_replicated full_name expected_count_per_location crit_threshold p = true := by
  have hmem : ∀ p : String × List (String × ℕ), p ∈ sorted_iteritems info ↔ p ∈ info := by
    intro p
    unfold sorted_iteritems
    exact List.mem_insertionSort _
  rw [any_map_self, List.any_eq_true]
  constructor
  · rintro ⟨p, hp, hf⟩
    exact ⟨p, (hmem p).mp hp, hf⟩
  · rintro ⟨p, hp, hf⟩
    exact ⟨p, (hmem p).mpr hp, hf⟩

/-- C5: on the non-empty discovery path, the status sent is CRITICAL exactly
when some location is under-replicated (its recorded backend count for the full
name, defaulting to 0, is judged under the per-domain expected count by
`is_under_replicated`), and OK exactly when no location is. -/
theorem c5_any_domain_rule (env : ExternalEnv) (service instance_name : String)
    (info : ReplicationInfo) (crit_threshold : ℤ) (expected_count : ℕ)
    (hns : env.read_namespace_for_service_instance = instance_name)
    (hne : info ≠ []) (hteam : env.get_team.isSome) :
    ((check_smartstack_replication_for_instance env service instance_name info
        crit_threshold expected_count).map (Option.map Event.status) =
      some (some SensuStatus.CRITICAL) ↔
      ∃ p ∈ info, location_under_replicated (service ++ ID_SPACER ++ instance_name)
        (expected_count / info.length) crit_threshold p = true) ∧
    ((check_smartstack_replication_for_instance env service instance_name info
        crit_threshold expected_count).map (Option.map Event.status) =
      some (some SensuStatus.OK) ↔
      ∀ p ∈ info, location_under_replicated (service ++ ID_SPACER ++ instance_name)
        (expected_count / info.length) crit_threshold p = false) := by
  obtain ⟨team, hteam2⟩ := Option.isSome_iff_exists.mp hteam
  rw [check_smartstack_nonempty_eq env service instance_name info crit_threshold expected_count hns hne]
  have hflags := any_flags_iff info (service ++ ID_SPACER ++ instance_name)
    (expected_count / info.length) crit_threshold
  cases hany : ((sorted_iteritems info).map (location_under_replicated (service ++ ID_SPACER ++ instance_name)
      (expected_count / info.length) crit_threshold)).any (fun b => b)
  · rw [hany] at hflags
    simp only [hany, Bool.false_eq_true, if_false]
    simp only [send_event, hteam2, Option.map_some]
    constructor
    · constructor
      · intro hcontra
        simp at hcontra
      · intro hex
        exact absurd (hflags.mpr hex) (by simp)
    · constructor
      · intro _
        intro p hp
        by_contra hb
        have : location_under_replicated (service ++ ID_SPACER ++ instance_name)
            (expected_count / info.length) crit_threshold p = true := by
          cases hx : location_under_replicated (service ++ ID_SPACER ++ instance_name)
              (expected_count / info.length) crit_threshold p
          · exact absurd hx hb
          · rfl
        exact absurd (hflags.mpr ⟨p, hp, this⟩) (by simp)
      · intro _
        rfl
  · rw [hany] at hflags
    simp only [hany, if_true]
    simp only [send_event, hteam2, Option.map_some]
    constructor
    · constructor
      · intro _
        exact hflags.mp rfl
      · intro _
        rfl
    · constructor
      · intro hcontra
        simp at hcontra
      · intro hall
        obtain ⟨p, hp, hf⟩ := hflags.mp rfl
        rw [hall p hp] at hf
        exact absurd hf (by simp)

/-- Witness for C5: 10 expected over 3 domains at threshold 50; domain dc-b has
1 of 3 backends, so the any-domain rule applies. -/
theorem c5_any_domain_rule_witness :
    c5_env.read_namespace_for_service_instance = "main" ∧ c5_info ≠ [] ∧ c5_env.get_team.isSome ∧
    (((check_smartstack_replication_for_instance c5_env "svc" "main" c5_info 50 10).map
        (Option.map Event.status) = some (some SensuStatus.CRITICAL) ↔
      ∃ p ∈ c5_info, location_under_replicated ("svc" ++ ID_SPACER ++ "main")
        (10 / c5_info.length) 50 p = true) ∧
     ((check_smartstack_replication_for_instance c5_env "svc" "main" c5_info 50 10).map
        (Option.map Event.status) = some (some SensuStatus.OK) ↔
      ∀ p ∈ c5_info, location_under_replicated ("svc" ++ ID_SPACER ++ "main")
        (10 / c5_info.length) 50 p = false)) :=
  ⟨rfl, by decide, rfl, c5_any_domain_rule c5_env "svc" "main" c5_info 50 10 rfl (by decide) rfl⟩

/-- C6: on the direct-count path the observed count is the number of running
tasks across active frameworks, a single ratio is taken against the full
expected count, and the dispatched status is CRITICAL exactly when that ratio
is below the threshold, else OK. -/
theorem c6_mesos_single_ratio (env : ExternalEnv) (service instance_name : String)
    (crit_threshold : ℤ) (expected_count : ℕ) (hteam : env.get_team.isSome) :
    (check_mesos_replication_for_service env service instance_name crit_threshold expected_count).map
        Event.status =
      some (if (is_under_replicated env.get_running_tasks_from_active_frameworks.length
                  expected_count crit_threshold).2 < (crit_threshold : ℚ)
            then SensuStatus.CRITICAL else SensuStatus.OK) := by
  obtain ⟨team, hteam2⟩ := Option.isSome_iff_exists.mp hteam
  unfold check_mesos_replication_for_service send_event_if_under_replication
  dsimp only
  by_cases h1 : (is_under_replicated env.get_running_tasks_from_active_frameworks.length
      expected_count crit_threshold).1 = true
  · have h2 := (is_under_replicated_fst_iff _ _ _).mp h1
    simp [h1, h2, send_event, hteam2]
  · have h2 : ¬ (is_under_replicated env.get_running_tasks_from_active_frameworks.length
        expected_count crit_threshold).2 < (crit_threshold : ℚ) :=
      fun hc => h1 ((is_under_replicated_fst_iff _ _ _).mpr hc)
    simp [h1, h2, send_event, hteam2]

/-- Witness for C6: 1 running task of 4 expected at threshold 50 (ratio 25). -/
theorem c6_mesos_single_ratio_witness :
    c6_env.get_team.isSome ∧
    (check_mesos_replication_for_service c6_env "svc" "main" 50 4).map Event.status =
      some (if (is_under_replicated c6_env.get_running_tasks_from_active_frameworks.length 4 50).2 < ((50 : ℤ) : ℚ)
            then SensuStatus.CRITICAL else SensuStatus.OK) :=
  ⟨rfl, c6_mesos_single_ratio c6_env "svc" "main" 50 4 rfl⟩

lemma location_line_eq_spec (full_name : String) (expected_count_per_location : ℕ)
    (crit_threshold : ℤ) (p : String × List (String × ℕ)) :
    location_line full_name expected_count_per_location crit_threshold p =
      "- Service " ++ spec_location_line full_name expected_count_per_location crit_threshold p ++ "\n" := by
  unfold location_line spec_location_line
  dsimp only
  cases h : (is_under_replicated ((List.lookup full_name p.2).getD 0)
      expected_count_per_location crit_threshold).1 <;>
    simp [h, String.append_assoc]

/-- C9 counterexample: the composed per-domain line carries a "- Service "
prefix and a trailing newline, so it is not in the spec's quoted
"<full identifier> has ..." format; the event text for a concrete one-domain
slice shows the prefixed form. -/
theorem c9_counterexample :
    location_line "svc.main" 3 50 ("dc-b", [("svc.main", 1)]) =
      "- Service svc.main has 1 out of 3 expected instances in dc-b (CRITICAL: 33%)\n" ∧
    spec_location_line "svc.main" 3 50 ("dc-b", [("svc.main", 1)]) =
      "svc.main has 1 out of 3 expected instances in dc-b (CRITICAL: 33%)" ∧
    location_line "svc.main" 3 50 ("dc-b", [("svc.main", 1)]) ≠
      spec_location_line "svc.main" 3 50 ("dc-b", [("svc.main", 1)]) ∧
    (check_smartstack_replication_for_instance c9_env "svc" "main"
        [("dc-b", [("svc.main", 1)])] 50 3).map (Option.map Event.output) =
      some (some ("- Service svc.main has 1 out of 3 expected instances in dc-b (CRITICAL: 33%)\n" ++
        "\n" ++ "ctx")) := by
  refine ⟨?_, ?_, ?_, ?_⟩ <;> with_unfolding_all decide

/-- C9 (amended): on the non-empty discovery path the event text is the join,
in sorted-by-location order (the same order used for evaluation), of exactly
one line per location of the form
"- Service <full identifier> has <observed> out of <perDomainExpected> expected
instances in <domain> (<OK|CRITICAL>: <ratio>%)\n" with the ratio as an integer
percentage, with diagnostic context appended when the verdict is CRITICAL. -/
theorem c9_event_text_lines (env : ExternalEnv) (service instance_name : String)
    (info : ReplicationInfo) (crit_threshold : ℤ) (expected_count : ℕ)
    (hns : env.read_namespace_for_service_instance = instance_name)
    (hne : info ≠ []) (hteam : env.get_team.isSome) :
    (check_smartstack_replication_for_instance env service instance_name info
        crit_threshold expected_count).map (Option.map Event.output) =
      some (some (
        if ((sorted_iteritems info).map (location_under_replicated (service ++ ID_SPACER ++ instance_name)
              (expected_count / info.length) crit_threshold)).any (fun b => b)
        then add_context_to_event env.get_context (String.join ((sorted_iteritems info).map
               (fun p => "- Service " ++ spec_location_line (service ++ ID_SPACER ++ instance_name)
                 (expected_count / info.length) crit_threshold p ++ "\n")))
        else String.join ((sorted_iteritems info).map
               (fun p => "- Service " ++ spec_location_line (service ++ ID_SPACER ++ instance_name)
                 (expected_count / info.length) crit_threshold p ++ "\n")))) := by
  obtain ⟨team, hteam2⟩ := Option.isSome_iff_exists.mp hteam
  rw [check_smartstack_nonempty_eq env service instance_name info crit_threshold expected_count hns hne]
  have hline : (sorted_iteritems info).map (location_line (service ++ ID_SPACER ++ instance_name)
      (expected_count / info.length) crit_threshold) =
      (sorted_iteritems info).map (fun p => "- Service " ++ spec_location_line
        (service ++ ID_SPACER ++ instance_name) (expected_count / info.length) crit_threshold p ++ "\n") := by
    have hfun : location_line (service ++ ID_SPACER ++ instance_name)
        (expected_count / info.length) crit_threshold =
        fun p => "- Service " ++ spec_location_line (service ++ ID_SPACER ++ instance_name)
          (expected_count / info.length) crit_threshold p ++ "\n" :=
      funext (location_line_eq_spec (service ++ ID_SPACER ++ instance_name)
        (expected_count / info.length) crit_threshold)
    rw [hfun]
  cases hany : ((sorted_iteritems info).map (location_under_replicated (service ++ ID_SPACER ++ instance_name)
      (expected_count / info.length) crit_threshold)).any (fun b => b) <;>
    simp [hany, send_event, hteam2, hline]

/-- Witness for the amended C9 on a concrete two-domain slice. -/
theorem c9_event_text_lines_witness :
    c9_env.read_namespace_for_service_instance = "main" ∧ c9w_info ≠ [] ∧ c9_env.get_team.isSome ∧
    (check_smartstack_replication_for_instance c9_env "svc" "main" c9w_info 50 6).map
        (Option.map Event.output) =
      some (some (
        if ((sorted_iteritems c9w_info).map (location_under_replicated ("svc" ++ ID_SPACER ++ "main")
              (6 / c9w_info.length) 50)).any (fun b => b)
        then add_context_to_event c9_env.get_context (String.join ((sorted_iteritems c9w_info).map
               (fun p => "- Service " ++ spec_location_line ("svc" ++ ID_SPACER ++ "main")
                 (6 / c9w_info.length) 50 p ++ "\n")))
        else String.join ((sorted_iteritems c9w_info).map
               (fun p => "- Service " ++ spec_location_line ("svc" ++ ID_SPACER ++ "main")
                 (6 / c9w_info.length) 50 p ++ "\n")))) :=
  ⟨rfl, by decide, rfl, c9_event_text_lines c9_env "svc" "main" c9w_info 50 6 rfl (by decide) rfl⟩
